import Mathlib

/-!
Shallow embedding of the go-resolve-host batch DNS resolver.

The repository holds two iterations of the same program, both in package
main: `resolver.go` (namespace `ResolverGo` below) and the self-contained
`main.go` (namespace `MainGo` below).  Side effects (logging) are embedded
as the ordered list of `LogEvent`s a call emits; the network is embedded as
a `Backend` oracle giving, for each query, the answer or error the Go
`net.Resolver` call would return (cancellation of the shared context shows
up as an error from the oracle, exactly as `LookupIP`/`LookupAddr` surface
it).  Wall-clock readings are oracle inputs where the code logs them.
-/

/-- Model of Go `net.IP`: a byte slice, 4 bytes for IPv4 or 16 bytes for
IPv6 / IPv4-mapped addresses. -/
structure IPAddr where
  bytes : List Nat
  deriving DecidableEq, Repr

/-- The 12-byte marker that opens the 16-byte form of an IPv4-mapped
address (Go `net`: ten zero bytes then 0xff 0xff). -/
def v4MappedMarker : List Nat := [0, 0, 0, 0, 0, 0, 0, 0, 0, 0, 255, 255]

/-- Model of Go `net.IP.Equal`: byte equality at equal lengths, and an
IPv4 address equals the 16-byte IPv4-mapped form with the same last four
bytes. -/
def IPAddr.equal (ip x : IPAddr) : Bool :=
  if ip.bytes.length = x.bytes.length then ip.bytes = x.bytes
  else if ip.bytes.length = 4 && x.bytes.length = 16 then
    (x.bytes.take 12 = v4MappedMarker) && (ip.bytes = x.bytes.drop 12)
  else if ip.bytes.length = 16 && x.bytes.length = 4 then
    (ip.bytes.take 12 = v4MappedMarker) && (x.bytes = ip.bytes.drop 12)
  else false

/-- Model of Go `net.ParseIP "0.0.0.0"`: `net.IPv4(0,0,0,0)`, which is the
16-byte IPv4-mapped representation of 0.0.0.0. -/
def sentinelIP : IPAddr := ⟨v4MappedMarker ++ [0, 0, 0, 0]⟩

/-- The literal 4-byte form of 0.0.0.0. -/
def zero4 : IPAddr := ⟨[0, 0, 0, 0]⟩

/-- The 16-byte IPv4-mapped form of 0.0.0.0. -/
def zero16 : IPAddr := ⟨v4MappedMarker ++ [0, 0, 0, 0]⟩

/-- Model of Go `net.DNSError` as the code reads it: the short error text
(`dnsErr.Err`) and the not-found classification (`dnsErr.IsNotFound`). -/
structure DNSErrorInfo where
  err : String
  isNotFound : Bool
  deriving DecidableEq, Repr

/-- An error returned by a resolver call: either a `*net.DNSError` or any
other error (for example a raw context cancellation), carried with its
rendered message. -/
inductive LookupError where
  | dns (d : DNSErrorInfo)
  | other (msg : String)
  deriving DecidableEq, Repr

/-- Resolution-backend oracle: the answers the `net.Resolver` calls would
return.  `lookupIP` takes the network string ("ip", "ip4", "ip6") and the
hostname; `lookupAddr` takes the rendered address string, as the code
passes `ip.String()`. -/
structure Backend where
  lookupIP : String → String → Except LookupError (List IPAddr)
  lookupAddr : String → Except LookupError (List String)

/-- One logging call, with the data the code formats into it.  Constructor
names record which iteration emits which shape. -/
inductive LogEvent where
  | infoIgnored (hostname blocked : String)
  | infoReverse (ipS hostname names : String)
  | errorReverseDNS (hostname ipS errS : String) (notFound : Bool)
  | errorReverseAny (ipS hostname : String) (e : LookupError)
  | infoAddrs (hostname addrs : String)
  | errorResolveDNS (hostname errS : String) (notFound : Bool)
  | errorResolveOther (hostname errS : String)
  | errorResolveAny (hostname : String) (e : LookupError)
  | infoDuration (hostname : String)
  | summary (pfx : String) (count : Nat) (durMs : Int) (names : String)
  deriving DecidableEq, Repr

/-- Embedding of `addrString` (identical in resolver.go and main.go): the
indexed loop that appends `ip.String()` plus ", " except at the last
index.  `ipStr` is the oracle for Go `net.IP.String`. -/
def addrString (ipStr : IPAddr → String) (ips : List IPAddr) : String :=
  (ips.enum).foldl
    (fun addrStr p =>
      if p.1 = ips.length - 1 then addrStr ++ ipStr p.2
      else addrStr ++ ipStr p.2 ++ ", ")
    ""

/-- Spec-side definition for the address formatter, written from the
spec's words: comma-space joined, no trailing separator, input order. -/
def joinCommaSpace : List String → String
  | [] => ""
  | [x] => x
  | x :: y :: t => x ++ ", " ++ joinCommaSpace (y :: t)

/-- The resolver a run ends up using: the process default resolver, or a
custom one whose dial goes to the given DNS server address. -/
inductive ResolverChoice where
  | dflt
  | custom (dnsAddr : String)
  deriving DecidableEq, Repr

/-- Embedding of `getDnsResolver` (main.go): empty string picks the
default resolver; a non-empty string is checked with `net.ParseIP`
(abstracted as the `validIP` oracle, true exactly when `ParseIP` returns
non-nil) and rejected with an invalid-address error otherwise. -/
def getDnsResolver (validIP : String → Bool) (dnsServerIp : String) :
    Except String ResolverChoice :=
  if dnsServerIp.length ≠ 0 then
    if !(validIP dnsServerIp) then
      Except.error ("Invalid ip address: " ++ dnsServerIp)
    else Except.ok (ResolverChoice.custom dnsServerIp)
  else Except.ok ResolverChoice.dflt

/-- Embedding of `prefixStr` (main.go): picks the summary framing by
comparing the batch's total elapsed duration to the configured timeout
(both Go `time.Duration` values, modelled as integer nanoseconds). -/
def prefixStr (total timeout : Int) : String :=
  if total > timeout then "Deadline exceeded" else "Total duration"

namespace ResolverGo

/-- Events one reverse-lookup attempt emits in resolver.go's
`resolveReverse` loop body, after the sentinel check: a `*net.DNSError`
failure is logged with its not-found flag; any other failure is not
logged at all (the error branch has no else arm); success logs the
names joined by `strings.Join(names, ", ")`. -/
def processOne (ipStr : IPAddr → String) (b : Backend) (hostname : String)
    (ip : IPAddr) : List LogEvent :=
  match b.lookupAddr (ipStr ip) with
  | Except.error (LookupError.dns d) =>
      [LogEvent.errorReverseDNS hostname (ipStr ip) d.err d.isNotFound]
  | Except.error (LookupError.other _) => []
  | Except.ok names =>
      [LogEvent.infoReverse (ipStr ip) hostname (String.intercalate ", " names)]

/-- The loop of resolver.go's `resolveReverse`.  `n` is `len(ips)` of the
original list, read inside the loop: a sentinel address logs the ignored
message and returns only when `n = 1`; with other addresses present it is
skipped silently. -/
def revLoop (ipStr : IPAddr → String) (b : Backend) (hostname : String)
    (n : Nat) : List IPAddr → List LogEvent
  | [] => []
  | ip :: rest =>
    if ip.equal sentinelIP then
      if n = 1 then [LogEvent.infoIgnored hostname "0.0.0.0"]
      else revLoop ipStr b hostname n rest
    else processOne ipStr b hostname ip ++ revLoop ipStr b hostname n rest

/-- Embedding of resolver.go's `resolveReverse`. -/
def resolveReverse (ipStr : IPAddr → String) (b : Backend)
    (ips : List IPAddr) (hostname : String) : List LogEvent :=
  revLoop ipStr b hostname ips.length ips

/-- Embedding of resolver.go's `ResolveHostname`: forward lookup; on
error, log it (with the not-found flag when it is a `*net.DNSError`) and
return — no reverse lookup and no duration line; on success log the
formatted address set, run `resolveReverse`, then log the elapsed
duration. -/
def ResolveHostname (ipStr : IPAddr → String) (b : Backend)
    (network : String) (hostname : String) : List LogEvent :=
  match b.lookupIP network hostname with
  | Except.error (LookupError.dns d) =>
      [LogEvent.errorResolveDNS hostname d.err d.isNotFound]
  | Except.error (LookupError.other m) =>
      [LogEvent.errorResolveOther hostname m]
  | Except.ok ips =>
      LogEvent.infoAddrs hostname (addrString ipStr ips)
        :: (resolveReverse ipStr b ips hostname ++ [LogEvent.infoDuration hostname])

/-- Embedding of resolver.go's `ResolveHostnames`: one independent
`ResolveHostname` per hostname joined by a wait group; each task's event
sequence depends only on its own hostname, collected here in list order. -/
def ResolveHostnames (ipStr : IPAddr → String) (b : Backend)
    (network : String) (hostnames : List String) : List LogEvent :=
  hostnames.flatMap (ResolveHostname ipStr b network)

end ResolverGo

namespace MainGo

/-- Events one reverse-lookup attempt emits in main.go's `resolveReverse`
loop body after the sentinel check: any failure is logged (the error is
printed with %v), success logs the joined names. -/
def processOne (ipStr : IPAddr → String) (b : Backend) (hostname : String)
    (ip : IPAddr) : List LogEvent :=
  match b.lookupAddr (ipStr ip) with
  | Except.error e => [LogEvent.errorReverseAny (ipStr ip) hostname e]
  | Except.ok names =>
      [LogEvent.infoReverse (ipStr ip) hostname (String.intercalate ", " names)]

/-- Embedding of main.go's `resolveReverse`: for every address that equals
the parse of "0.0.0.0" it logs the ignored message and continues;
otherwise it attempts the reverse lookup. -/
def resolveReverse (ipStr : IPAddr → String) (b : Backend)
    (ips : List IPAddr) (hostname : String) : List LogEvent :=
  match ips with
  | [] => []
  | ip :: rest =>
    (if ip.equal sentinelIP then [LogEvent.infoIgnored hostname "0.0.0.0"]
     else processOne ipStr b hostname ip)
      ++ resolveReverse ipStr b rest hostname

/-- Embedding of main.go's `resolveHostname`: forward lookup on network
"ip4"; any error is logged with %v and the function returns; on success
the address set, the reverse results, then the duration are logged. -/
def resolveHostname (ipStr : IPAddr → String) (b : Backend)
    (hostname : String) : List LogEvent :=
  match b.lookupIP "ip4" hostname with
  | Except.error e => [LogEvent.errorResolveAny hostname e]
  | Except.ok ips =>
      LogEvent.infoAddrs hostname (addrString ipStr ips)
        :: (resolveReverse ipStr b ips hostname ++ [LogEvent.infoDuration hostname])

/-- Embedding of main.go's `resolveHostnames`: one independent
`resolveHostname` per hostname joined by a wait group, collected in list
order. -/
def resolveHostnames (ipStr : IPAddr → String) (b : Backend)
    (hostnames : List String) : List LogEvent :=
  hostnames.flatMap (resolveHostname ipStr b)

end MainGo

/-- A fatal exit taken by `main` before or instead of running the batch. -/
inductive FatalExit where
  | usageTimeout
  | usageNoHostnames
  | invalidDns (msg : String)
  deriving DecidableEq, Repr

/-- Embedding of `main` (main.go) after flag parsing: reject a negative
timeout as a usage error, reject an empty hostname list, build the
resolver from the dnsserver flag, run the batch under the timeout
context, then always log the aggregate summary line.  `totalNs` is the
wall-clock total the final `time.Since` reads; the timeout in
nanoseconds is `timeoutMs * 1000000` as in
`time.Duration(*timeoutArg) * time.Millisecond`. -/
def mainModel (ipStr : IPAddr → String) (validIP : String → Bool)
    (mkBackend : ResolverChoice → Backend) (totalNs : Int)
    (timeoutMs : Int) (dnsServerIp : String) (hostnames : List String) :
    Except FatalExit (List LogEvent) :=
  if timeoutMs < 0 then Except.error FatalExit.usageTimeout
  else if hostnames.length = 0 then Except.error FatalExit.usageNoHostnames
  else
    match getDnsResolver validIP dnsServerIp with
    | Except.error m => Except.error (FatalExit.invalidDns m)
    | Except.ok rc =>
        Except.ok
          (MainGo.resolveHostnames ipStr (mkBackend rc) hostnames
            ++ [LogEvent.summary (prefixStr totalNs (timeoutMs * 1000000))
                  hostnames.length (Int.tdiv totalNs 1000000)
                  (String.intercalate ", " hostnames)])

/-- Rendering oracle used for concrete instances: dotted decimal bytes,
matching the Go IPv4 rendering for 4-byte addresses. -/
def sampleIpStr (ip : IPAddr) : String :=
  String.intercalate "." (ip.bytes.map toString)

/-- A concrete routable address used in instances. -/
def ip1234 : IPAddr := ⟨[1, 2, 3, 4]⟩

/-- Backend instance where every lookup succeeds. -/
def okBackend : Backend where
  lookupIP := fun _ _ => Except.ok [ip1234]
  lookupAddr := fun _ => Except.ok ["host.example."]

/-- Backend instance where the forward lookup fails with a not-found DNS
error and the reverse lookup fails with a non-DNS error. -/
def errBackend : Backend where
  lookupIP := fun _ _ => Except.error (LookupError.dns ⟨"no such host", true⟩)
  lookupAddr := fun _ =>
    Except.error (LookupError.other "read udp 127.0.0.1:53: connection refused")

/-- Backend instance whose forward lookup succeeds with an empty address
set. -/
def emptyOkBackend : Backend where
  lookupIP := fun _ _ => Except.ok []
  lookupAddr := fun _ => Except.ok []

lemma addrString_foldl_enumFrom (ipStr : IPAddr → String) (n : Nat) :
    ∀ (xs : List IPAddr) (k : Nat) (acc : String), k + xs.length = n →
      (xs.enumFrom k).foldl
        (fun addrStr p =>
          if p.1 = n - 1 then addrStr ++ ipStr p.2
          else addrStr ++ ipStr p.2 ++ ", ") acc
      = acc ++ joinCommaSpace (xs.map ipStr) := by
  intro xs
  induction xs with
  | nil =>
    intro k acc _
    simp [joinCommaSpace]
  | cons x rest ih =>
    intro k acc hk
    cases rest with
    | nil =>
      have hk1 : k = n - 1 := by
        simp at hk
        omega
      simp [List.enumFrom, hk1, joinCommaSpace]
    | cons y t =>
      have hkne : k ≠ n - 1 := by
        simp at hk
        omega
      have hrec := ih (k + 1) (acc ++ ipStr x ++ ", ") (by simp at hk ⊢; omega)
      simp only [List.enumFrom, List.foldl_cons, if_neg hkne] at hrec ⊢
      rw [hrec]
      simp [joinCommaSpace, String.append_assoc]

/-- C8: the address formatter maps the empty sequence to the empty
string, a one-element sequence to that element's string form, and any
longer sequence to the elements' string forms joined by comma-space with
no trailing separator, preserving input order — that is, `addrString`
equals the comma-space join of the rendered elements. -/
theorem c8_addr_formatter (ipStr : IPAddr → String) (ips : List IPAddr) :
    addrString ipStr ips = joinCommaSpace (ips.map ipStr) := by
  have h := addrString_foldl_enumFrom ipStr ips.length ips 0 "" (by simp)
  simpa [addrString, List.enum] using h

/-- C6: the aggregate summary framing is a pure function of the pair
(total elapsed, configured timeout): it is "Deadline exceeded" exactly
when total is strictly greater than the timeout, and "Total duration"
otherwise; no cancellation flag enters `prefixStr`. -/
theorem c6_prefix_characterization (total timeout : Int) :
    (prefixStr total timeout = "Deadline exceeded" ↔ total > timeout) ∧
    (prefixStr total timeout = "Total duration" ↔ ¬total > timeout) := by
  have hne : ("Deadline exceeded" : String) ≠ "Total duration" := by decide
  by_cases h : total > timeout
  · simp [prefixStr, h, hne]
  · simp [prefixStr, h, Ne.symm hne]

/-- C5: the resolver factory fails exactly when the DNS-server string is
non-empty and not a valid IP literal (the `validIP` oracle is Go
`net.ParseIP` returning non-nil), and on the empty string it succeeds
with the process default resolver. -/
theorem c5_resolver_factory (validIP : String → Bool) (s : String) :
    ((∃ e, getDnsResolver validIP s = Except.error e) ↔
       (s ≠ "" ∧ validIP s = false)) ∧
    getDnsResolver validIP "" = Except.ok ResolverChoice.dflt := by
  constructor
  · by_cases h0 : s.length = 0
    · have hs : s = "" := by
        cases s with
        | mk data =>
          simp [String.length] at h0
          simp [h0]
      simp [getDnsResolver, hs]
    · have hs : s ≠ "" := fun hEq => h0 (by simp [hEq])
      by_cases hv : validIP s
      · simp [getDnsResolver, h0, hv, hs]
      · simp [getDnsResolver, h0, hv, hs, eq_false_of_ne_true]
  · simp [getDnsResolver]

lemma revLoop_ne_one (ipStr : IPAddr → String) (b : Backend) (hostname : String)
    (n : Nat) (hn : n ≠ 1) :
    ∀ ips : List IPAddr, ResolverGo.revLoop ipStr b hostname n ips =
      (ips.filter (fun ip => !(ip.equal sentinelIP))).flatMap
        (ResolverGo.processOne ipStr b hostname) := by
  intro ips
  induction ips with
  | nil => simp [ResolverGo.revLoop]
  | cons ip rest ih =>
    by_cases hb : ip.equal sentinelIP
    · simp [ResolverGo.revLoop, hb, hn, List.filter_cons, ih]
    · simp [ResolverGo.revLoop, hb, List.filter_cons, ih]

lemma revLoop_no_sentinel (ipStr : IPAddr → String) (b : Backend)
    (hostname : String) (n : Nat) :
    ∀ ips : List IPAddr, (∀ ip ∈ ips, ip.equal sentinelIP = false) →
      ResolverGo.revLoop ipStr b hostname n ips =
        ips.flatMap (ResolverGo.processOne ipStr b hostname) := by
  intro ips
  induction ips with
  | nil =>
    intro _
    simp [ResolverGo.revLoop]
  | cons ip rest ih =>
    intro hns
    have hb : ip.equal sentinelIP = false := hns ip (List.mem_cons_self ip rest)
    have hrest := ih fun x hx => hns x (List.mem_cons_of_mem ip hx)
    simp [ResolverGo.revLoop, hb, hrest]

lemma mainGo_resolveReverse_no_sentinel (ipStr : IPAddr → String) (b : Backend)
    (hostname : String) :
    ∀ ips : List IPAddr, (∀ ip ∈ ips, ip.equal sentinelIP = false) →
      MainGo.resolveReverse ipStr b ips hostname =
        ips.flatMap (MainGo.processOne ipStr b hostname) := by
  intro ips
  induction ips with
  | nil =>
    intro _
    simp [MainGo.resolveReverse]
  | cons ip rest ih =>
    intro hns
    have hb : ip.equal sentinelIP = false := hns ip (List.mem_cons_self ip rest)
    have hrest := ih fun x hx => hns x (List.mem_cons_of_mem ip hx)
    simp [MainGo.resolveReverse, hb, hrest]

/-- C1 counterexample: with the sentinel first in a two-address list,
resolver.go's `resolveReverse` emits no info-level ignored message for it
— the message appears only when the sentinel is the sole address, so the
claim's "regardless of whether the sentinel is the only address" part
fails on resolver.go. -/
theorem c1_counterexample :
    LogEvent.infoIgnored "h" "0.0.0.0" ∉
      ResolverGo.resolveReverse sampleIpStr okBackend [zero4, ip1234] "h" := by
  decide

/-- C1 (amended): a sentinel address is always skipped with no reverse
lookup and no error, and processing of the remaining addresses continues;
but in resolver.go the info-level ignored message is emitted only when
the sentinel is the only address of the list (in which case the loop
returns), while with other addresses present the sentinel is dropped
silently; main.go's iteration logs the ignored message for every
sentinel occurrence and continues. -/
theorem c1_sentinel_skip_amended (ipStr : IPAddr → String) (b : Backend)
    (hostname : String) (ips : List IPAddr) :
    (ResolverGo.resolveReverse ipStr b ips hostname =
      match ips with
      | [ip] =>
        if ip.equal sentinelIP then [LogEvent.infoIgnored hostname "0.0.0.0"]
        else ResolverGo.processOne ipStr b hostname ip
      | _ =>
        (ips.filter (fun ip => !(ip.equal sentinelIP))).flatMap
          (ResolverGo.processOne ipStr b hostname)) ∧
    (∀ (ip : IPAddr) (rest : List IPAddr),
      MainGo.resolveReverse ipStr b (ip :: rest) hostname =
        (if ip.equal sentinelIP then [LogEvent.infoIgnored hostname "0.0.0.0"]
         else MainGo.processOne ipStr b hostname ip)
          ++ MainGo.resolveReverse ipStr b rest hostname) := by
  constructor
  · match ips with
    | [] => simp [ResolverGo.resolveReverse, ResolverGo.revLoop]
    | [ip] =>
      by_cases hb : ip.equal sentinelIP <;>
        simp [ResolverGo.resolveReverse, ResolverGo.revLoop, hb]
    | a :: c :: t =>
      have hn : (a :: c :: t).length ≠ 1 := by simp
      simpa [ResolverGo.resolveReverse] using
        revLoop_ne_one ipStr b hostname (a :: c :: t).length hn (a :: c :: t)
  · intro ip rest
    by_cases hb : ip.equal sentinelIP <;> simp [MainGo.resolveReverse, hb]

/-- C2: when the forward lookup fails (DNS error or any other error, for
example cancellation), `ResolveHostname` emits exactly the one error
report — with the not-found flag when the error is a `*net.DNSError` —
and nothing else: no reverse lookup is attempted, and since the result is
a plain event list, no error propagates; in the batch, the failing
hostname's report sits between the untouched reports of its siblings. -/
theorem c2_forward_error_isolated (ipStr : IPAddr → String) (b : Backend)
    (network hostname : String) (e : LookupError)
    (h : b.lookupIP network hostname = Except.error e) :
    (ResolverGo.ResolveHostname ipStr b network hostname =
      match e with
      | LookupError.dns d => [LogEvent.errorResolveDNS hostname d.err d.isNotFound]
      | LookupError.other m => [LogEvent.errorResolveOther hostname m]) ∧
    (∀ pre post : List String,
      ResolverGo.ResolveHostnames ipStr b network (pre ++ hostname :: post) =
        ResolverGo.ResolveHostnames ipStr b network pre
          ++ ResolverGo.ResolveHostname ipStr b network hostname
          ++ ResolverGo.ResolveHostnames ipStr b network post) := by
  constructor
  · cases e with
    | dns d => simp [ResolverGo.ResolveHostname, h]
    | other m => simp [ResolverGo.ResolveHostname, h]
  · intro pre post
    simp [ResolverGo.ResolveHostnames]

theorem c2_forward_error_isolated_witness :
    (ResolverGo.ResolveHostname sampleIpStr errBackend "ip4" "h" =
      [LogEvent.errorResolveDNS "h" "no such host" true]) ∧
    (∀ pre post : List String,
      ResolverGo.ResolveHostnames sampleIpStr errBackend "ip4" (pre ++ "h" :: post) =
        ResolverGo.ResolveHostnames sampleIpStr errBackend "ip4" pre
          ++ ResolverGo.ResolveHostname sampleIpStr errBackend "ip4" "h"
          ++ ResolverGo.ResolveHostnames sampleIpStr errBackend "ip4" post) :=
  c2_forward_error_isolated sampleIpStr errBackend "ip4" "h"
    (LookupError.dns ⟨"no such host", true⟩) rfl

/-- C3 counterexample: a reverse lookup failing with a non-DNS error (a
plain connection error) produces no log event at all in resolver.go — the
error branch of its reverse loop only logs when the error is a
`*net.DNSError`, so "on every failure it reports the error" fails. -/
theorem c3_counterexample :
    ResolverGo.resolveReverse sampleIpStr errBackend [ip1234] "h" = [] := by
  decide

/-- C3 (amended): every non-sentinel address gets an independent reverse
lookup in input order, and no failure suppresses the attempts for the
following addresses; on success the comma-joined names are reported; but
in resolver.go only DNS-classified failures are reported, a failure that
is not a `*net.DNSError` is silently dropped (main.go's iteration reports
every failure). -/
theorem c3_reverse_attempts_amended (ipStr : IPAddr → String) (b : Backend)
    (hostname : String) (ips : List IPAddr)
    (hns : ∀ ip ∈ ips, ip.equal sentinelIP = false) :
    (ResolverGo.resolveReverse ipStr b ips hostname =
      ips.flatMap (ResolverGo.processOne ipStr b hostname)) ∧
    (MainGo.resolveReverse ipStr b ips hostname =
      ips.flatMap (MainGo.processOne ipStr b hostname)) ∧
    (∀ (ip : IPAddr) (names : List String),
      b.lookupAddr (ipStr ip) = Except.ok names →
        ResolverGo.processOne ipStr b hostname ip =
          [LogEvent.infoReverse (ipStr ip) hostname
            (String.intercalate ", " names)]) ∧
    (∀ (ip : IPAddr) (d : DNSErrorInfo),
      b.lookupAddr (ipStr ip) = Except.error (LookupError.dns d) →
        ResolverGo.processOne ipStr b hostname ip =
          [LogEvent.errorReverseDNS hostname (ipStr ip) d.err d.isNotFound]) ∧
    (∀ (ip : IPAddr) (m : String),
      b.lookupAddr (ipStr ip) = Except.error (LookupError.other m) →
        ResolverGo.processOne ipStr b hostname ip = [] ∧
        MainGo.processOne ipStr b hostname ip =
          [LogEvent.errorReverseAny (ipStr ip) hostname
            (LookupError.other m)]) := by
  refine ⟨?_, ?_, ?_, ?_, ?_⟩
  · exact revLoop_no_sentinel ipStr b hostname ips.length ips hns
  · exact mainGo_resolveReverse_no_sentinel ipStr b hostname ips hns
  · intro ip names hok
    simp [ResolverGo.processOne, hok]
  · intro ip d herr
    simp [ResolverGo.processOne, herr]
  · intro ip m herr
    exact ⟨by simp [ResolverGo.processOne, herr], by simp [MainGo.processOne, herr]⟩

theorem c3_reverse_attempts_amended_witness :
    (ResolverGo.resolveReverse sampleIpStr errBackend [ip1234] "h" =
      [ip1234].flatMap (ResolverGo.processOne sampleIpStr errBackend "h")) ∧
    (MainGo.resolveReverse sampleIpStr errBackend [ip1234] "h" =
      [ip1234].flatMap (MainGo.processOne sampleIpStr errBackend "h")) ∧
    (∀ (ip : IPAddr) (names : List String),
      errBackend.lookupAddr (sampleIpStr ip) = Except.ok names →
        ResolverGo.processOne sampleIpStr errBackend "h" ip =
          [LogEvent.infoReverse (sampleIpStr ip) "h"
            (String.intercalate ", " names)]) ∧
    (∀ (ip : IPAddr) (d : DNSErrorInfo),
      errBackend.lookupAddr (sampleIpStr ip) =
          Except.error (LookupError.dns d) →
        ResolverGo.processOne sampleIpStr errBackend "h" ip =
          [LogEvent.errorReverseDNS "h" (sampleIpStr ip) d.err d.isNotFound]) ∧
    (∀ (ip : IPAddr) (m : String),
      errBackend.lookupAddr (sampleIpStr ip) =
          Except.error (LookupError.other m) →
        ResolverGo.processOne sampleIpStr errBackend "h" ip = [] ∧
        MainGo.processOne sampleIpStr errBackend "h" ip =
          [LogEvent.errorReverseAny (sampleIpStr ip) "h"
            (LookupError.other m)]) :=
  c3_reverse_attempts_amended sampleIpStr errBackend "h" [ip1234] (by decide)

/-- C4 counterexample: both batch coordinators, applied to the empty
hostname list, complete as a no-op with no events — there is no
EmptyInput failure (their Go return type has no error channel at all). -/
theorem c4_counterexample :
    ResolverGo.ResolveHostnames sampleIpStr okBackend "ip4" [] = [] ∧
    MainGo.resolveHostnames sampleIpStr okBackend [] = [] :=
  ⟨rfl, rfl⟩

/-- C4 (amended): applied to an empty hostname list, the batch run
completes immediately as a no-op, launching no resolutions and failing
with nothing; the empty-input rejection lives only in the CLI collaborator,
which exits with a usage error before the coordinator is invoked. -/
theorem c4_empty_batch_amended (ipStr : IPAddr → String) (b : Backend)
    (network : String) (validIP : String → Bool)
    (mkBackend : ResolverChoice → Backend) (totalNs : Int) :
    ResolverGo.ResolveHostnames ipStr b network [] = [] ∧
    MainGo.resolveHostnames ipStr b [] = [] ∧
    mainModel ipStr validIP mkBackend totalNs 1000 "" [] =
      Except.error FatalExit.usageNoHostnames := by
  refine ⟨rfl, rfl, ?_⟩
  simp [mainModel]

/-- C7 counterexample: when the forward lookup fails, `ResolveHostname`
returns after the error report and emits no duration line, so "always
reports an elapsed duration" fails on the error path. -/
theorem c7_counterexample :
    LogEvent.infoDuration "h" ∉
      ResolverGo.ResolveHostname sampleIpStr errBackend "ip4" "h" := by
  decide

/-- C7 (amended): whenever the forward lookup succeeds — including with
an empty address set — `ResolveHostname` reports the elapsed duration,
and that report is the last event, after reverse-lookup completion; on
forward-lookup failure no duration is reported. -/
theorem c7_duration_amended (ipStr : IPAddr → String) (b : Backend)
    (network hostname : String) (ips : List IPAddr)
    (h : b.lookupIP network hostname = Except.ok ips) :
    (ResolverGo.ResolveHostname ipStr b network hostname =
      LogEvent.infoAddrs hostname (addrString ipStr ips)
        :: (ResolverGo.resolveReverse ipStr b ips hostname
              ++ [LogEvent.infoDuration hostname])) ∧
    (ResolverGo.ResolveHostname ipStr b network hostname).getLast? =
      some (LogEvent.infoDuration hostname) := by
  have heq : ResolverGo.ResolveHostname ipStr b network hostname =
      (LogEvent.infoAddrs hostname (addrString ipStr ips)
        :: ResolverGo.resolveReverse ipStr b ips hostname)
        ++ [LogEvent.infoDuration hostname] := by
    simp [ResolverGo.ResolveHostname, h]
  constructor
  · simpa using heq
  · rw [heq, List.getLast?_concat]

theorem c7_duration_amended_witness :
    (ResolverGo.ResolveHostname sampleIpStr emptyOkBackend "ip4" "h" =
      LogEvent.infoAddrs "h" (addrString sampleIpStr [])
        :: (ResolverGo.resolveReverse sampleIpStr emptyOkBackend [] "h"
              ++ [LogEvent.infoDuration "h"])) ∧
    (ResolverGo.ResolveHostname sampleIpStr emptyOkBackend "ip4" "h").getLast? =
      some (LogEvent.infoDuration "h") :=
  c7_duration_amended sampleIpStr emptyOkBackend "ip4" "h" [] rfl

/-- C9: the sentinel check is semantic IP equality against the parse of
"0.0.0.0" (a 16-byte IPv4-mapped value), so both the 4-byte form 0.0.0.0
and the 16-byte IPv4-mapped form compare equal to the sentinel, and both
iterations skip the reverse lookup for the 4-byte form even though its
byte representation differs from the parsed sentinel. -/
theorem c9_sentinel_semantic_equality :
    (IPAddr.equal zero4 sentinelIP = true ∧
     IPAddr.equal zero16 sentinelIP = true ∧
     zero4 ≠ sentinelIP) ∧
    (∀ (ipStr : IPAddr → String) (b : Backend) (hostname : String)
        (rest : List IPAddr),
      MainGo.resolveReverse ipStr b (zero4 :: rest) hostname =
        LogEvent.infoIgnored hostname "0.0.0.0"
          :: MainGo.resolveReverse ipStr b rest hostname) ∧
    (∀ (ipStr : IPAddr → String) (b : Backend) (hostname : String),
      ResolverGo.resolveReverse ipStr b [zero4] hostname =
          [LogEvent.infoIgnored hostname "0.0.0.0"] ∧
      ResolverGo.resolveReverse ipStr b [zero16] hostname =
          [LogEvent.infoIgnored hostname "0.0.0.0"]) := by
  have hb4 : IPAddr.equal zero4 sentinelIP = true := by decide
  have hb16 : IPAddr.equal zero16 sentinelIP = true := by decide
  refine ⟨⟨hb4, hb16, by decide⟩, ?_, ?_⟩
  · intro ipStr b hostname rest
    simp [MainGo.resolveReverse, hb4]
  · intro ipStr b hostname
    exact ⟨by simp [ResolverGo.resolveReverse, ResolverGo.revLoop, hb4],
           by simp [ResolverGo.resolveReverse, ResolverGo.revLoop, hb16]⟩

/-- C10: the timeout validation rejects exactly the strictly negative
millisecond values, so 0 is accepted; with timeout 0 (a deadline equal to
the batch start instant) the batch still runs over every hostname and the
run ends with the aggregate summary line. -/
theorem c10_zero_timeout (ipStr : IPAddr → String) (validIP : String → Bool)
    (mkBackend : ResolverChoice → Backend) (totalNs : Int)
    (h : String) (rest : List String) :
    (∀ t : Int,
      mainModel ipStr validIP mkBackend totalNs t "" (h :: rest) =
          Except.error FatalExit.usageTimeout ↔ t < 0) ∧
    mainModel ipStr validIP mkBackend totalNs 0 "" (h :: rest) =
      Except.ok
        (MainGo.resolveHostnames ipStr (mkBackend ResolverChoice.dflt) (h :: rest)
          ++ [LogEvent.summary (prefixStr totalNs 0) (h :: rest).length
                (Int.tdiv totalNs 1000000)
                (String.intercalate ", " (h :: rest))]) := by
  constructor
  · intro t
    by_cases ht : t < 0
    · simp [mainModel, ht]
    · simp [mainModel, ht, getDnsResolver]
  · simp [mainModel, getDnsResolver]
